import Mathlib

/-!
Verification of the auto-display-cal repository's decision-and-orchestration
layer against its design document.

The Python sources are shallowly embedded: pure decision logic becomes Lean
functions over ℚ (for Python floats) and ℤ/ℕ (for ints); every interaction
with the outside world (subprocess exit codes, regex-parse outcomes, the
filesystem, the wall clock) is abstracted into an explicit environment
record, one field per observable outcome of the corresponding call site.
An `Option` models a Python value that may be `None`, or a call that may
raise an exception that the source catches.
-/

namespace DisplayCal

/-! ## calibration_utils.py -/

/-- Outcome of running the `spotread` tool inside `get_ambient_lux`
(calibration_utils.py lines 104-138): the output parses to a lux value via
one of the two regexes, or parses to nothing, or the run times out
(`subprocess.TimeoutExpired`), or some other exception is raised.  The
source catches the last three cases and returns `None` for each. -/
inductive ReadOutcome where
  | parsed (lux : ℚ)
  | unparseable
  | timedOut
  | raised
deriving DecidableEq

/-- Environment for one call of `get_ambient_lux`: whether the `spotread`
binary was found (`find_binary` in calibration_utils.py, `command -v` in
auto_calibrate.py) and, if it was run, what came of it. -/
structure SpotreadEnv where
  found : Bool
  outcome : ReadOutcome
deriving DecidableEq

/-- calibration_utils.py lines 94-138, `get_ambient_lux`: returns the parsed
lux value, or `None` when the tool is missing, the output is unparseable,
the read times out, or an exception is raised (all absorbed by the
`try`/`except` blocks in the source). -/
def get_ambient_lux (e : SpotreadEnv) : Option ℚ :=
  if e.found then
    match e.outcome with
    | .parsed l => some l
    | .unparseable => none
    | .timedOut => none
    | .raised => none
  else none

/-- Environment for one call of `get_ambient_light_condition`
(calibration_utils.py lines 140-169): `connected` is the result of
`check_spyder5_connected` (which absorbs its own exceptions and returns a
bool), `spotread` the environment of the reading attempted only when
connected, and `hour` the wall-clock hour `datetime.now().hour`. -/
structure SamplerEnv where
  connected : Bool
  spotread : SpotreadEnv
  hour : ℕ
deriving DecidableEq

/-- calibration_utils.py lines 159-169 (also auto_calibrate.py lines
172-184): the time-of-day fallback, written once in the source as the
fall-through tail of the sampler. -/
def timeOfDayFallback (h : ℕ) : String :=
  if 6 ≤ h ∧ h < 9 then "high"
  else if 9 ≤ h ∧ h < 17 then "high"
  else if 17 ≤ h ∧ h < 20 then "medium"
  else "low"

/-- calibration_utils.py lines 140-169, `get_ambient_light_condition`: the
lux reading is attempted only when the device check succeeds; a numeric
reading is classified by thresholds 10 and 100, and every other path falls
through to the time-of-day fallback. -/
def get_ambient_light_condition (env : SamplerEnv) : String :=
  match (if env.connected then get_ambient_lux env.spotread else none) with
  | some lux =>
    if lux < 10 then "low"
    else if lux < 100 then "medium"
    else "high"
  | none => timeOfDayFallback env.hour

/-- Environment for `apply_icc_profile` (calibration_utils.py lines
172-204): whether `find_binary` located `dispwin`, and the outcome of the
`subprocess.run` invocation — `some code` for an exit code, `none` when the
invocation raised (caught by the source's `except`). -/
structure ApplyEnv where
  dispwinFound : Bool
  dispwinResult : Option ℤ
deriving DecidableEq

/-- calibration_utils.py lines 196-204: the advertised AppleScript fallback
block.  Its `try` body only logs that the fallback is skipped as unreliable
and returns `False`; the `except` arm also returns `False`. -/
def applescriptFallback : Bool := false

/-- calibration_utils.py lines 172-204, `apply_icc_profile`: returns `True`
exactly when `dispwin` was found and exited with code 0; a non-zero exit,
an exception, or a missing binary all fall through to the fallback block,
which returns `False` unconditionally. -/
def apply_icc_profile (e : ApplyEnv) : Bool :=
  if e.dispwinFound then
    match e.dispwinResult with
    | some code => if code = 0 then true else applescriptFallback
    | none => applescriptFallback
  else applescriptFallback

/-! ## Command lines

External tool invocations are embedded as structured argument lists: a
constructor per kind of argument, keeping numeric parameters as exact
rationals/integers instead of their decimal rendering (the source formats
the R/G/B factors with `:.3f`; the concrete factor values the claims speak
about are exact at three decimals, so nothing is lost). -/

inductive CmdArg where
  | str (s : String)
  | whitePt (kelvin : ℤ)
  | gammaVal (g : ℚ)
  | rFactor (f : ℚ)
  | gFactor (f : ℚ)
  | bFactor (f : ℚ)
  | outBase (name : String)
deriving DecidableEq

/-- Percentage adjustment to multiplicative factor, `1.0 + adj / 100.0`
(auto_calibrate.py lines 258-260, calibrate_new.py lines 112-114). -/
def colorFactor (adj : ℚ) : ℚ := 1 + adj / 100

/-- Python's `list.insert(-1, a)` on a non-empty list: insert `a` just
before the last element (auto_calibrate.py lines 263-265, calibrate_new.py
lines 115-117). -/
def insertBeforeLast (xs : List CmdArg) (a : CmdArg) : List CmdArg :=
  xs.take (xs.length - 1) ++ a :: xs.drop (xs.length - 1)

/-- Events the orchestrators can log, named after the source's log lines. -/
inductive LogEvent where
  | measurementFailed
  | profileCreationFailed
  | artifactMissingWarning
  | exceptionLogged
  | toolNotFound
  | fileHandlingError
deriving DecidableEq

/-- External invocations an orchestration run performs, in order. -/
inductive Invocation where
  | dispcalRun
  | colprofRun
  | applyRun
deriving DecidableEq

/-- The outcome of an orchestration run: the boolean the Python function
returns, the external tools it actually executed (in order), and what it
logged along the way. -/
structure RunResult where
  success : Bool
  invoked : List Invocation
  logs : List LogEvent
deriving DecidableEq

/-! ## auto_calibrate.py -/

namespace AutoCal

/-- Environment for auto_calibrate.py's `get_ambient_light` (lines
157-184): the `spotread` attempt (lines 97-155, same shape as the
calibration_utils variant) and the wall-clock hour. -/
structure SampleEnv where
  spotread : SpotreadEnv
  hour : ℕ
deriving DecidableEq

/-- auto_calibrate.py lines 157-184, `get_ambient_light`: like the
calibration_utils sampler but with no device pre-check — the reading is
attempted directly. -/
def get_ambient_light (env : SampleEnv) : String :=
  match get_ambient_lux env.spotread with
  | some lux =>
    if lux < 10 then "low"
    else if lux < 100 then "medium"
    else "high"
  | none => timeOfDayFallback env.hour

/-- The command-line arguments of auto_calibrate.py (lines 27-40):
`--red`, `--green` and `--blue` default to `0.0`; the other overrides default to
`None` (absent). -/
structure Args where
  red : ℚ
  green : ℚ
  blue : ℚ
  brightness : Option ℤ
  gamma : Option ℚ
  white_point : Option ℤ
  profile_name : Option String
deriving DecidableEq

/-- The argparse defaults of auto_calibrate.py's `parse_arguments`. -/
def defaultArgs : Args := ⟨0, 0, 0, none, none, none, none⟩

/-- One row of the base-settings dict in `get_calibration_settings`
(auto_calibrate.py lines 188-210). -/
structure Row where
  gamma : ℚ
  white_point : ℤ
  brightness : ℤ
  name : String
  icc_file : String
deriving DecidableEq

/-- The `settings` dict literal of auto_calibrate.py lines 188-210, as its
ordered entry list. -/
def settingsTable : List (String × Row) :=
  [("low", ⟨2.2, 5500, 80, "LowLight_Profile", "LowLight_Profile.icc"⟩),
   ("medium", ⟨2.2, 6500, 100, "MediumLight_Profile", "MediumLight_Profile.icc"⟩),
   ("high", ⟨2.2, 6500, 120, "HighLight_Profile", "HighLight_Profile.icc"⟩)]

/-- The dict's `"medium"` row, the default of `settings.get(ambient_light,
settings["medium"])`. -/
def mediumRow : Row := ⟨2.2, 6500, 100, "MediumLight_Profile", "MediumLight_Profile.icc"⟩

/-- `settings.get(ambient_light, settings["medium"])`: dict lookup with the
medium row as default (auto_calibrate.py line 213). -/
def lookupBase (cond : String) : Row :=
  ((settingsTable.find? (fun p => cond == p.1)).map Prod.snd).getD mediumRow

/-- The fully resolved settings value (auto_calibrate.py lines 216-227). -/
structure Settings where
  gamma : ℚ
  white_point : ℤ
  brightness : ℤ
  name : String
  icc_file : String
  red_adjustment : ℚ
  green_adjustment : ℚ
  blue_adjustment : ℚ
deriving DecidableEq

/-- auto_calibrate.py lines 186-229, `get_calibration_settings`: gamma,
white_point and brightness override on `is not None`; the profile name
overrides on Python truthiness (`args.profile_name if args.profile_name
else ...`), so an empty string falls back to the base name; red/green/blue
are copied from the arguments unconditionally. -/
def get_calibration_settings (ambient_light : String) (args : Args) : Settings :=
  let base := lookupBase ambient_light
  { gamma := match args.gamma with | some g => g | none => base.gamma
    white_point := match args.white_point with | some w => w | none => base.white_point
    brightness := match args.brightness with | some b => b | none => base.brightness
    name := match args.profile_name with
            | some n => if n = "" then base.name else n
            | none => base.name
    icc_file := base.icc_file
    red_adjustment := args.red
    green_adjustment := args.green
    blue_adjustment := args.blue }

/-- The `dispcal` command before color adjustments (auto_calibrate.py lines
242-250); the output base name `{settings.name}_{timestamp}.cal` is
abstracted to its settings-name part. -/
def dispcalBase (s : Settings) : List CmdArg :=
  [.str "dispcal", .str "-d1", .str "-t", .whitePt s.white_point,
   .str "-g", .gammaVal s.gamma, .str "-yl", .str "-q", .str "m",
   .outBase s.name]

/-- auto_calibrate.py lines 242-265: the measurement command with the three
factor arguments inserted before the output name exactly when at least one
of the adjustments is non-zero. -/
def dispcalCmd (s : Settings) : List CmdArg :=
  if s.red_adjustment ≠ 0 ∨ s.green_adjustment ≠ 0 ∨ s.blue_adjustment ≠ 0 then
    insertBeforeLast
      (insertBeforeLast
        (insertBeforeLast (dispcalBase s) (.rFactor (colorFactor s.red_adjustment)))
        (.gFactor (colorFactor s.green_adjustment)))
      (.bFactor (colorFactor s.blue_adjustment))
  else dispcalBase s

/-- Environment for `run_calibration` (auto_calibrate.py lines 231-313):
the exit codes of the two tool invocations (`none` means the invocation
raised, caught by the function-level `except`, e.g. `FileNotFoundError`),
and whether `{base_name}.icc` exists after `colprof` succeeds. -/
structure RunEnv where
  dispcalResult : Option ℤ
  colprofResult : Option ℤ
  iccExists : Bool
deriving DecidableEq

/-- auto_calibrate.py lines 231-313, `run_calibration`: `dispcal` then, on
exit 0, `colprof`; on `colprof` exit 0 the function applies the profile if
`{base_name}.icc` exists, logs only a warning if it does not, and returns
`True` in both cases; any non-zero exit returns `False`, and any exception
is caught and returns `False`. -/
def run_calibration (env : RunEnv) : RunResult :=
  match env.dispcalResult with
  | none => ⟨false, [], [.exceptionLogged]⟩
  | some code =>
    if code = 0 then
      match env.colprofResult with
      | none => ⟨false, [.dispcalRun], [.exceptionLogged]⟩
      | some pcode =>
        if pcode = 0 then
          if env.iccExists then
            ⟨true, [.dispcalRun, .colprofRun, .applyRun], []⟩
          else
            ⟨true, [.dispcalRun, .colprofRun], [.artifactMissingWarning]⟩
        else ⟨false, [.dispcalRun, .colprofRun], [.profileCreationFailed]⟩
    else ⟨false, [.dispcalRun], [.measurementFailed]⟩

end AutoCal

/-! ## calibrate_new.py -/

namespace CalNew

/-- The command-line arguments of calibrate_new.py's `main` (lines
208-217): same shape as auto_calibrate's. -/
structure Args where
  red : ℚ
  green : ℚ
  blue : ℚ
  brightness : Option ℤ
  gamma : Option ℚ
  white_point : Option ℤ
  profile_name : Option String
deriving DecidableEq

/-- The argparse defaults of calibrate_new.py's parser. -/
def defaultArgs : Args := ⟨0, 0, 0, none, none, none, none⟩

/-- One row of the defaults dict of calibrate_new.py lines 24-37. -/
structure Row where
  gamma : ℚ
  white_point : ℤ
  brightness : ℤ
  name : String
deriving DecidableEq

/-- The `settings` dict literal of calibrate_new.py lines 24-37. -/
def settingsTable : List (String × Row) :=
  [("low", ⟨2.2, 5500, 80, "LowLight_Profile"⟩),
   ("medium", ⟨2.2, 6500, 100, "MediumLight_Profile"⟩),
   ("high", ⟨2.2, 6500, 120, "HighLight_Profile"⟩)]

/-- The dict's `"medium"` row. -/
def mediumRow : Row := ⟨2.2, 6500, 100, "MediumLight_Profile"⟩

/-- `settings.get(condition, settings["medium"])` (calibrate_new.py line 39). -/
def lookupBase (cond : String) : Row :=
  ((settingsTable.find? (fun p => cond == p.1)).map Prod.snd).getD mediumRow

/-- The resolved settings value of calibrate_new.py lines 42-51. -/
structure Settings where
  gamma : ℚ
  white_point : ℤ
  brightness : ℤ
  name : String
  quality : String
  red_adj : ℚ
  green_adj : ℚ
  blue_adj : ℚ
deriving DecidableEq

/-- calibrate_new.py lines 21-51, `get_calibration_settings`: here EVERY
override is tested by Python truthiness (`args.gamma if args.gamma else
base["gamma"]`), so `0`/`0.0` and the empty string fall back to the base
row just like `None` does; red/green/blue come from the arguments
unconditionally and quality is the constant `"m"`. -/
def get_calibration_settings (condition : String) (args : Args) : Settings :=
  let base := lookupBase condition
  { gamma := match args.gamma with | some g => if g = 0 then base.gamma else g | none => base.gamma
    white_point := match args.white_point with
                   | some w => if w = 0 then base.white_point else w
                   | none => base.white_point
    brightness := match args.brightness with
                  | some b => if b = 0 then base.brightness else b
                  | none => base.brightness
    name := match args.profile_name with
            | some n => if n = "" then base.name else n
            | none => base.name
    quality := "m"
    red_adj := args.red
    green_adj := args.green
    blue_adj := args.blue }

/-- The `dispcal` command of calibrate_new.py lines 100-108 before color
adjustments; the base name `{settings.name}_{timestamp}` is abstracted to
its settings-name part. -/
def dispcalBase (s : Settings) : List CmdArg :=
  [.str "dispcal", .str "-d1", .str "-t", .whitePt s.white_point,
   .str "-g", .gammaVal s.gamma, .str "-yl", .str "-q", .str s.quality,
   .outBase s.name]

/-- calibrate_new.py lines 100-117: `any([red, green, blue])` on floats is
exactly "some adjustment is non-zero"; the three factor arguments are
inserted before the output name in that case. -/
def dispcalCmd (s : Settings) : List CmdArg :=
  if s.red_adj ≠ 0 ∨ s.green_adj ≠ 0 ∨ s.blue_adj ≠ 0 then
    insertBeforeLast
      (insertBeforeLast
        (insertBeforeLast (dispcalBase s) (.rFactor (colorFactor s.red_adj)))
        (.gFactor (colorFactor s.green_adj)))
      (.bFactor (colorFactor s.blue_adj))
  else dispcalBase s

/-- Environment for `run_calibration_process` (calibrate_new.py lines
82-205).  `dispcalFound`/`colprofFound` are the `find_binary` results;
`callResult` is the outcome of the `subprocess.call` of `dispcal` (`none`
when the execution block raised, caught at lines 151-153); `colprofResult`
is the exit code `subprocess.check_call` observes for `colprof`;
`iccExists` whether `{base_name}.icc` exists afterwards; `finalizeOk`
whether the copy-and-report block ran without raising; `applyOk` the
result of `apply_icc_profile` on the copied profile.

We model the execution path on which the session-capture setup at line 126
completes (it references `shutil` without importing it, so on POSIX the
function would raise `NameError` there before any tool runs; the claims
about this function are conditional on the measurement tool actually
running, which this path realises). -/
structure RunEnv where
  dispcalFound : Bool
  colprofFound : Bool
  callResult : Option ℤ
  colprofResult : ℤ
  iccExists : Bool
  finalizeOk : Bool
  applyOk : Bool
deriving DecidableEq

/-- calibrate_new.py lines 82-205, `run_calibration_process`: missing
binaries fail before anything runs; a non-zero `dispcal` exit returns
`False` before `colprof` is ever invoked; a `colprof` failure returns
`False`; afterwards the function returns `True` only if the `.icc`
artifact exists, the copy/report block succeeds and `apply_icc_profile`
returns `True` — in every other case control reaches the final
`return False`. -/
def run_calibration_process (env : RunEnv) : RunResult :=
  if ¬(env.dispcalFound = true ∧ env.colprofFound = true) then
    ⟨false, [], [.toolNotFound]⟩
  else
    match env.callResult with
    | none => ⟨false, [], [.exceptionLogged]⟩
    | some ret =>
      if ret ≠ 0 then ⟨false, [.dispcalRun], [.measurementFailed]⟩
      else if env.colprofResult ≠ 0 then
        ⟨false, [.dispcalRun, .colprofRun], [.profileCreationFailed]⟩
      else if env.iccExists then
        if env.finalizeOk then
          if env.applyOk then
            ⟨true, [.dispcalRun, .colprofRun, .applyRun], []⟩
          else ⟨false, [.dispcalRun, .colprofRun, .applyRun], []⟩
        else ⟨false, [.dispcalRun, .colprofRun], [.fileHandlingError]⟩
      else ⟨false, [.dispcalRun, .colprofRun], []⟩

end CalNew

/-! ## apply_profile.py -/

namespace ApplyProf

/-- What a filesystem path names.  `os.path.exists` is true for a regular
file, a directory, and any other existing object alike. -/
inductive FileKind where
  | absent
  | regular
  | directory
  | otherKind
deriving DecidableEq

/-- A filesystem snapshot: what each path names at lookup time. -/
structure FS where
  kind : String → FileKind

/-- `os.path.exists p` over the snapshot. -/
def pathExists (fs : FS) (p : String) : Bool :=
  match fs.kind p with
  | .absent => false
  | _ => true

/-- `os.path.join(d, f)` for a directory spelled without a trailing slash,
as all the candidate directories here are. -/
def joinPath (d f : String) : String := d ++ "/" ++ f

/-- apply_profile.py lines 47-51: the three candidate paths, in order —
the profile directory (default: the current working directory), the
user-level ColorSync store, the system-wide ColorSync store.  Paths are
opaque keys; `os.path.expanduser` is absorbed into the `~` spelling. -/
def candidates (profileDir fname : String) : List String :=
  [joinPath profileDir fname,
   "~/Library/ColorSync/Profiles/" ++ fname,
   "/Library/ColorSync/Profiles/" ++ fname]

/-- apply_profile.py lines 53-57: walk the candidates and keep the first
one for which `os.path.exists` holds; `none` when there is no such
candidate. -/
def findProfile (fs : FS) (profileDir fname : String) : Option String :=
  (candidates profileDir fname).find? (pathExists fs)

end ApplyProf

/-! ## tune_display.py -/

namespace Tune

/-- The mutable `state` dict of tune_display.py lines 23-28: four float
multipliers, `1.0` = neutral. -/
structure TunerState where
  red : ℚ
  green : ℚ
  blue : ℚ
  gain : ℚ
deriving DecidableEq

/-- tune_display.py line 16: the per-keystroke step. -/
def STEP_SIZE : ℚ := 0.01

/-- `min(1.0, max(0.0, v))` from tune_display.py lines 65-67. -/
def clamp01 (v : ℚ) : ℚ := min 1 (max 0 v)

/-- One data line of the generated `.cal` file (tune_display.py lines
63-68): input fraction `i / 255.0` and the three clamped channel values. -/
def curveEntry (s : TunerState) (i : ℕ) : ℚ × ℚ × ℚ × ℚ :=
  ((i : ℚ) / 255,
   clamp01 ((i : ℚ) / 255 * s.gain * s.red),
   clamp01 ((i : ℚ) / 255 * s.gain * s.green),
   clamp01 ((i : ℚ) / 255 * s.gain * s.blue))

/-- The 256 data entries `generate_cal_file` writes between `BEGIN_DATA`
and `END_DATA` (tune_display.py lines 47-73), in file order. -/
def calData (s : TunerState) : List (ℚ × ℚ × ℚ × ℚ) :=
  (List.range 256).map (curveEntry s)

/-- The data entry at index `i` (out-of-range defaults to zeros). -/
def calDataAt (s : TunerState) (i : ℕ) : ℚ × ℚ × ℚ × ℚ :=
  (calData s).getD i (0, 0, 0, 0)

/-- What one iteration of the interactive loop does with the keystroke it
read (tune_display.py lines 109-165): `cont s applied` means the loop goes
around again with state `s`, having called `apply_tuning` (regenerate the
curve and run `dispwin`) iff `applied`; the other constructors end the
loop. -/
inductive StepOutcome where
  | cont (s : TunerState) (applied : Bool)
  | quitKeep
  | cancelRevert
  | exportSave (s : TunerState)
deriving DecidableEq

/-- One iteration of tune_display.py's `main` loop (lines 109-165): `q`
quits keeping the curve, `x` reverts the LUT and quits, `s`/`S` exports
and quits; `r g b w` (lower = down, upper = up) step the matching state
field.  Every key that does not end the loop — recognised or not — falls
through to the unconditional `apply_tuning` call at the bottom of the loop
body, so `cont` always carries `applied := true`. -/
def tunerStep (c : Char) (s : TunerState) : StepOutcome :=
  if c = 'q' then .quitKeep
  else if c = 'x' then .cancelRevert
  else if c.toLower = 's' then .exportSave s
  else
    let s' :=
      if c = 'r' then { s with red := s.red - STEP_SIZE }
      else if c = 'R' then { s with red := s.red + STEP_SIZE }
      else if c = 'g' then { s with green := s.green - STEP_SIZE }
      else if c = 'G' then { s with green := s.green + STEP_SIZE }
      else if c = 'b' then { s with blue := s.blue - STEP_SIZE }
      else if c = 'B' then { s with blue := s.blue + STEP_SIZE }
      else if c = 'w' then { s with gain := s.gain - STEP_SIZE }
      else if c = 'W' then { s with gain := s.gain + STEP_SIZE }
      else s
    .cont s' true

end Tune

/-! ## Spec-side definitions

The design document's own wording of the classification tables, for the
refinement theorems; everything above is translated from the Python
sources, these two are translated from the spec's sentences. -/

/-- Spec wording: lux below 10 is LOW; from 10 below 100 is MEDIUM;
otherwise (at least 100) HIGH — half-open intervals. -/
def luxClassSpec (lux : ℚ) : String :=
  if lux < 10 then "low"
  else if 10 ≤ lux ∧ lux < 100 then "medium"
  else "high"

/-- Spec wording: hour in [6,9) or [9,17) is HIGH, [17,20) MEDIUM,
otherwise LOW. -/
def hourClassSpec (h : ℕ) : String :=
  if 6 ≤ h ∧ h < 9 then "high"
  else if 9 ≤ h ∧ h < 17 then "high"
  else if 17 ≤ h ∧ h < 20 then "medium"
  else "low"

/-- Spec wording of the base table for auto_calibrate's resolver: the LOW,
MEDIUM and HIGH rows, with every condition outside the three known ones
resolving to the MEDIUM row. -/
def baseRowSpecAuto (cond : String) : AutoCal.Row :=
  if cond = "low" then ⟨2.2, 5500, 80, "LowLight_Profile", "LowLight_Profile.icc"⟩
  else if cond = "high" then ⟨2.2, 6500, 120, "HighLight_Profile", "HighLight_Profile.icc"⟩
  else ⟨2.2, 6500, 100, "MediumLight_Profile", "MediumLight_Profile.icc"⟩

/-- Spec wording of the base table for calibrate_new's resolver. -/
def baseRowSpecNew (cond : String) : CalNew.Row :=
  if cond = "low" then ⟨2.2, 5500, 80, "LowLight_Profile"⟩
  else if cond = "high" then ⟨2.2, 6500, 120, "HighLight_Profile"⟩
  else ⟨2.2, 6500, 100, "MediumLight_Profile"⟩

lemma autoLookupBase_eq (cond : String) :
    AutoCal.lookupBase cond = baseRowSpecAuto cond := by
  by_cases h1 : cond = "low"
  · subst h1; rfl
  · by_cases h2 : cond = "medium"
    · subst h2; rfl
    · by_cases h3 : cond = "high"
      · subst h3; rfl
      · have e1 : (cond == "low") = false := beq_eq_false_iff_ne.mpr h1
        have e2 : (cond == "medium") = false := beq_eq_false_iff_ne.mpr h2
        have e3 : (cond == "high") = false := beq_eq_false_iff_ne.mpr h3
        unfold AutoCal.lookupBase AutoCal.settingsTable baseRowSpecAuto AutoCal.mediumRow
        simp [List.find?, e1, e2, e3, h1, h3]

lemma newLookupBase_eq (cond : String) :
    CalNew.lookupBase cond = baseRowSpecNew cond := by
  by_cases h1 : cond = "low"
  · subst h1; rfl
  · by_cases h2 : cond = "medium"
    · subst h2; rfl
    · by_cases h3 : cond = "high"
      · subst h3; rfl
      · have e1 : (cond == "low") = false := beq_eq_false_iff_ne.mpr h1
        have e2 : (cond == "medium") = false := beq_eq_false_iff_ne.mpr h2
        have e3 : (cond == "high") = false := beq_eq_false_iff_ne.mpr h3
        unfold CalNew.lookupBase CalNew.settingsTable baseRowSpecNew CalNew.mediumRow
        simp [List.find?, e1, e2, e3, h1, h3]

/-! ## Theorems -/

/-- C1: both samplers classify an obtained numeric lux reading by the
half-open intervals lux < 10 → low, 10 ≤ lux < 100 → medium,
lux ≥ 100 → high (so lux = 10 is medium and lux = 100 is high), and when
no reading is available (device absent, tool missing, timeout, parse
failure or exception) the condition comes solely from the wall-clock hour
via the [6,9)/[9,17) → high, [17,20) → medium, otherwise → low table. -/
theorem ambient_light_classification :
    (∀ env : SamplerEnv,
      get_ambient_light_condition env =
        match (if env.connected then get_ambient_lux env.spotread else none) with
        | some lux => luxClassSpec lux
        | none => hourClassSpec env.hour) ∧
    (∀ env : AutoCal.SampleEnv,
      AutoCal.get_ambient_light env =
        match get_ambient_lux env.spotread with
        | some lux => luxClassSpec lux
        | none => hourClassSpec env.hour) ∧
    luxClassSpec 10 = "medium" ∧ luxClassSpec 100 = "high" := by
  have classEq : ∀ lux : ℚ,
      (if lux < 10 then "low" else if lux < 100 then "medium" else "high") =
        luxClassSpec lux := by
    intro lux
    unfold luxClassSpec
    split_ifs with h1 h2 h3 h4 <;> try rfl
    · exact absurd ⟨le_of_not_lt h1, h2⟩ h3
    · exact absurd h4.2 h2
  have fallEq : ∀ h : ℕ, timeOfDayFallback h = hourClassSpec h := fun _ => rfl
  refine ⟨?_, ?_, by decide, by decide⟩
  · intro env
    unfold get_ambient_light_condition
    cases hc : (if env.connected then get_ambient_lux env.spotread else none) with
    | none => exact fallEq env.hour
    | some lux => exact classEq lux
  · intro env
    unfold AutoCal.get_ambient_light
    cases hc : get_ambient_lux env.spotread with
    | none => exact fallEq env.hour
    | some lux => exact classEq lux

/-- C9: the ambient-light sampler is total — for every combination of
device-detection outcome, spotread outcome (including timeout, unparseable
output and raised exceptions) and wall-clock hour, it returns one of the
three condition strings, never an error. -/
theorem sampler_totality :
    ∀ env : SamplerEnv,
      get_ambient_light_condition env = "low" ∨
      get_ambient_light_condition env = "medium" ∨
      get_ambient_light_condition env = "high" := by
  intro env
  unfold get_ambient_light_condition
  cases hc : (if env.connected then get_ambient_lux env.spotread else none) with
  | none =>
    unfold timeOfDayFallback
    split_ifs <;> simp
  | some lux =>
    simp only
    split_ifs <;> simp

/-- C10: `apply_icc_profile` succeeds exactly when the primary `dispwin`
invocation runs and exits with code zero; the advertised AppleScript
fallback branch returns `false` unconditionally, so it can never turn a
primary failure into a success. -/
theorem apply_profile_primary_only :
    ∀ env : ApplyEnv,
      (apply_icc_profile env = true ↔
        env.dispwinFound = true ∧ env.dispwinResult = some 0) ∧
      applescriptFallback = false := by
  intro env
  refine ⟨?_, rfl⟩
  rcases env with ⟨f, r⟩
  cases f
  · simp [apply_icc_profile, applescriptFallback]
  · rcases r with _ | c
    · simp [apply_icc_profile, applescriptFallback]
    · by_cases hc : c = 0 <;> simp [apply_icc_profile, applescriptFallback, hc]

/-- C2 counterexample: the claim says each of the four fields equals the
user-supplied value whenever that value is non-null, but both resolvers
test by Python truthiness for some fields.  Supplying the non-null empty
string as profile name to auto_calibrate's resolver yields the base name,
not the empty string; supplying the non-null gamma `0.0` to
calibrate_new's resolver yields the base gamma `2.2`, not `0.0`. -/
theorem settings_override_nonnull_cx :
    (AutoCal.get_calibration_settings "medium"
        { AutoCal.defaultArgs with profile_name := some "" }).name = "MediumLight_Profile" ∧
    (AutoCal.get_calibration_settings "medium"
        { AutoCal.defaultArgs with profile_name := some "" }).name ≠ "" ∧
    (CalNew.get_calibration_settings "medium"
        { CalNew.defaultArgs with gamma := some 0 }).gamma = 2.2 ∧
    (CalNew.get_calibration_settings "medium"
        { CalNew.defaultArgs with gamma := some 0 }).gamma ≠ 0 := by
  refine ⟨rfl, by decide, rfl, ?_⟩
  have h : (CalNew.get_calibration_settings "medium"
      { CalNew.defaultArgs with gamma := some 0 }).gamma = 2.2 := rfl
  rw [h]
  norm_num

/-- C2 (amended): in auto_calibrate's resolver gamma, white_point and
brightness take the user value whenever it is non-null, while the name
takes the user value only when it is non-null AND non-empty; in
calibrate_new's resolver every one of the four fields takes the user value
only when it is non-null and truthy (non-zero / non-empty).  In all other
cases the base-table entry for the condition applies (LOW: 2.2/5500/80/
LowLight_Profile, MEDIUM: 2.2/6500/100/MediumLight_Profile, HIGH:
2.2/6500/120/HighLight_Profile); a condition outside the three known ones
resolves to the MEDIUM row; red/green/blue adjustments always come from
caller input, whose parser default is 0.0. -/
theorem settings_resolution_amended :
    ∀ (cond : String) (a : AutoCal.Args) (b : CalNew.Args),
      (AutoCal.get_calibration_settings cond a =
        { gamma := a.gamma.getD (baseRowSpecAuto cond).gamma
          white_point := a.white_point.getD (baseRowSpecAuto cond).white_point
          brightness := a.brightness.getD (baseRowSpecAuto cond).brightness
          name := match a.profile_name with
                  | some n => if n = "" then (baseRowSpecAuto cond).name else n
                  | none => (baseRowSpecAuto cond).name
          icc_file := (baseRowSpecAuto cond).icc_file
          red_adjustment := a.red
          green_adjustment := a.green
          blue_adjustment := a.blue }) ∧
      (CalNew.get_calibration_settings cond b =
        { gamma := match b.gamma with
                   | some g => if g = 0 then (baseRowSpecNew cond).gamma else g
                   | none => (baseRowSpecNew cond).gamma
          white_point := match b.white_point with
                         | some w => if w = 0 then (baseRowSpecNew cond).white_point else w
                         | none => (baseRowSpecNew cond).white_point
          brightness := match b.brightness with
                        | some v => if v = 0 then (baseRowSpecNew cond).brightness else v
                        | none => (baseRowSpecNew cond).brightness
          name := match b.profile_name with
                  | some n => if n = "" then (baseRowSpecNew cond).name else n
                  | none => (baseRowSpecNew cond).name
          quality := "m"
          red_adj := b.red
          green_adj := b.green
          blue_adj := b.blue }) ∧
      AutoCal.defaultArgs.red = 0 ∧ AutoCal.defaultArgs.green = 0 ∧
      AutoCal.defaultArgs.blue = 0 ∧ CalNew.defaultArgs.red = 0 ∧
      CalNew.defaultArgs.green = 0 ∧ CalNew.defaultArgs.blue = 0 := by
  intro cond a b
  refine ⟨?_, ?_, rfl, rfl, rfl, rfl, rfl, rfl⟩
  · unfold AutoCal.get_calibration_settings
    rw [autoLookupBase_eq]
    rcases a with ⟨r, g, bl, br, ga, wp, pn⟩
    cases ga <;> cases wp <;> cases br <;> rfl
  · unfold CalNew.get_calibration_settings
    rw [newLookupBase_eq]

lemma calDataAt_eq (s : Tune.TunerState) (i : ℕ) (h : i < 256) :
    Tune.calDataAt s i = Tune.curveEntry s i := by
  simp [Tune.calDataAt, Tune.calData, List.getD, h]

lemma clamp01_nonneg (v : ℚ) : 0 ≤ Tune.clamp01 v :=
  le_min (by norm_num) (le_max_left 0 v)

lemma clamp01_le_one (v : ℚ) : Tune.clamp01 v ≤ 1 := min_le_left 1 _

/-- C3: for every tuner state (any rational channel/gain values, inside or
outside [0,1]) the generated curve is the pure function of the state given
by `curveEntry`: it has exactly 256 data entries; EVERY index `i < 256` —
index 255 included — has input fraction `i / 255` and channel outputs
`clamp(0, 1, fraction * gain * factor)`, each lying in `[0, 1]` even when
the raw product falls outside that range; and the input fractions are
strictly increasing across every pair of indices `i < j < 256`. -/
theorem color_curve_invariant :
    ∀ (s : Tune.TunerState) (i : ℕ), i < 256 →
      (Tune.calData s).length = 256 ∧
      Tune.calDataAt s i =
        ((i : ℚ) / 255,
         Tune.clamp01 ((i : ℚ) / 255 * s.gain * s.red),
         Tune.clamp01 ((i : ℚ) / 255 * s.gain * s.green),
         Tune.clamp01 ((i : ℚ) / 255 * s.gain * s.blue)) ∧
      0 ≤ (Tune.calDataAt s i).2.1 ∧ (Tune.calDataAt s i).2.1 ≤ 1 ∧
      0 ≤ (Tune.calDataAt s i).2.2.1 ∧ (Tune.calDataAt s i).2.2.1 ≤ 1 ∧
      0 ≤ (Tune.calDataAt s i).2.2.2 ∧ (Tune.calDataAt s i).2.2.2 ≤ 1 ∧
      (∀ j : ℕ, j < 256 → i < j →
        (Tune.calDataAt s i).1 < (Tune.calDataAt s j).1) := by
  intro s i hi
  rw [calDataAt_eq s i hi]
  refine ⟨by simp [Tune.calData], rfl, clamp01_nonneg _, clamp01_le_one _,
    clamp01_nonneg _, clamp01_le_one _, clamp01_nonneg _, clamp01_le_one _, ?_⟩
  intro j hj hij
  rw [calDataAt_eq s j hj]
  show (i : ℚ) / 255 < (j : ℚ) / 255
  gcongr

/-- C3 witness: the invariant instantiated at the concrete state
(red 2, green 1, blue 1, gain 3) — whose raw products exceed 1 — and at
the last index 255, the peak clamping case: the length fact and the
red-channel upper bound there. -/
theorem color_curve_invariant_witness :
    (255 : ℕ) < 256 ∧ (Tune.calData ⟨2, 1, 1, 3⟩).length = 256 ∧
    (Tune.calDataAt ⟨2, 1, 1, 3⟩ 255).2.1 ≤ 1 :=
  ⟨by decide, (color_curve_invariant ⟨2, 1, 1, 3⟩ 255 (by decide)).1,
   (color_curve_invariant ⟨2, 1, 1, 3⟩ 255 (by decide)).2.2.2.1⟩

/-- C4 counterexample: the claim says an unrecognized keystroke does not
regenerate the curve or invoke the display-apply operation, but the loop
body of tune_display.py calls `apply_tuning` unconditionally after the
key dispatch, so the keystroke `z` (none of q, x, s/S, r/R, g/G, b/B,
w/W) leaves the state unchanged yet still regenerates and applies the
curve before the next keystroke is read. -/
theorem tuner_ignored_key_cx :
    Tune.tunerStep 'z' ⟨1, 1, 1, 1⟩ = Tune.StepOutcome.cont ⟨1, 1, 1, 1⟩ true ∧
    Tune.tunerStep 'z' ⟨1, 1, 1, 1⟩ ≠ Tune.StepOutcome.cont ⟨1, 1, 1, 1⟩ false := by
  refine ⟨rfl, ?_⟩
  intro h
  have : (true : Bool) = false := by
    have h2 := h
    rw [show Tune.tunerStep 'z' ⟨1, 1, 1, 1⟩ =
          Tune.StepOutcome.cont ⟨1, 1, 1, 1⟩ true from rfl] at h2
    injection h2
  exact Bool.noConfusion this

/-- C4 (amended): for every keystroke that is none of the eight adjustment
keys, the export key (s/S), the quit key (q) or the cancel key (x), the
tuner leaves the TunerState unchanged, but it still regenerates the color
curve from the unchanged state and invokes the display-apply operation
(the unconditional `apply_tuning` at the bottom of the loop body) before
reading the next keystroke. -/
theorem tuner_ignored_key_amended :
    ∀ (c : Char) (s : Tune.TunerState),
      c ≠ 'q' → c ≠ 'x' → c.toLower ≠ 's' →
      c ≠ 'r' → c ≠ 'R' → c ≠ 'g' → c ≠ 'G' →
      c ≠ 'b' → c ≠ 'B' → c ≠ 'w' → c ≠ 'W' →
      Tune.tunerStep c s = Tune.StepOutcome.cont s true := by
  intro c s h1 h2 h3 h4 h5 h6 h7 h8 h9 h10 h11
  simp [Tune.tunerStep, h1, h2, h3, h4, h5, h6, h7, h8, h9, h10, h11]

/-- C4 witness: the amended claim at the concrete keystroke `z` and the
neutral state. -/
theorem tuner_ignored_key_witness :
    Tune.tunerStep 'z' ⟨1, 1, 1, 1⟩ = Tune.StepOutcome.cont ⟨1, 1, 1, 1⟩ true :=
  tuner_ignored_key_amended 'z' ⟨1, 1, 1, 1⟩ (by decide) (by decide) (by decide)
    (by decide) (by decide) (by decide) (by decide) (by decide) (by decide)
    (by decide) (by decide)

/-- A filesystem snapshot on which the first candidate path is a
directory and nothing else exists. -/
def dirOnlyFS : ApplyProf.FS :=
  ⟨fun p => if p = "d/p.icc" then ApplyProf.FileKind.directory else ApplyProf.FileKind.absent⟩

/-- C5 counterexample: the claim says the locator returns the first
candidate that is an existing REGULAR FILE and never a directory, but
the source tests candidates with `os.path.exists`, which is also true for
directories — on a filesystem where `d/p.icc` is a directory, the locator
returns it. -/
theorem profile_lookup_directory_cx :
    ApplyProf.findProfile dirOnlyFS "d" "p.icc" = some "d/p.icc" ∧
    dirOnlyFS.kind "d/p.icc" = ApplyProf.FileKind.directory := by
  exact ⟨rfl, rfl⟩

/-- C5 (amended): for every filesystem, extra directory and filename the
locator checks exactly the three candidates in order — the extra
directory (default: the current working directory) joined with the
filename, the user-level ColorSync store, then the system-wide ColorSync
store — and returns the first candidate for which `os.path.exists` holds
(which may be a directory or other non-regular file); it returns nothing,
not an error, when no candidate exists. -/
theorem profile_lookup_order_amended :
    ∀ (fs : ApplyProf.FS) (dir fname : String),
      ApplyProf.findProfile fs dir fname =
        (if ApplyProf.pathExists fs (ApplyProf.joinPath dir fname) then
           some (ApplyProf.joinPath dir fname)
         else if ApplyProf.pathExists fs ("~/Library/ColorSync/Profiles/" ++ fname) then
           some ("~/Library/ColorSync/Profiles/" ++ fname)
         else if ApplyProf.pathExists fs ("/Library/ColorSync/Profiles/" ++ fname) then
           some ("/Library/ColorSync/Profiles/" ++ fname)
         else none) := by
  intro fs dir fname
  unfold ApplyProf.findProfile ApplyProf.candidates
  cases h1 : ApplyProf.pathExists fs (ApplyProf.joinPath dir fname) <;>
    cases h2 : ApplyProf.pathExists fs ("~/Library/ColorSync/Profiles/" ++ fname) <;>
      cases h3 : ApplyProf.pathExists fs ("/Library/ColorSync/Profiles/" ++ fname) <;>
        simp [List.find?, h1, h2, h3]

/-- C6 counterexample: the claim says a run in which both tools exit 0 but
the expected `.icc` artifact is missing ends in failure, yet
auto_calibrate's `run_calibration` only logs a warning about the missing
artifact and then returns `True`. -/
theorem artifact_missing_cx :
    (AutoCal.run_calibration ⟨some 0, some 0, false⟩).success = true ∧
    LogEvent.artifactMissingWarning ∈
      (AutoCal.run_calibration ⟨some 0, some 0, false⟩).logs := by
  exact ⟨rfl, by simp [AutoCal.run_calibration]⟩

/-- C6 (amended): when the profiling tool exits 0 but `{base_name}.icc`
does not exist, auto_calibrate's `run_calibration` reports the missing
artifact (a logged warning) but its overall result is SUCCESS, while
calibrate_new's `run_calibration_process` in the same situation results in
failure. -/
theorem artifact_missing_amended :
    (∀ env : AutoCal.RunEnv,
      env.dispcalResult = some 0 → env.colprofResult = some 0 → env.iccExists = false →
        (AutoCal.run_calibration env).success = true ∧
        LogEvent.artifactMissingWarning ∈ (AutoCal.run_calibration env).logs) ∧
    (∀ env : CalNew.RunEnv,
      env.dispcalFound = true → env.colprofFound = true →
      env.callResult = some 0 → env.colprofResult = 0 → env.iccExists = false →
        (CalNew.run_calibration_process env).success = false) := by
  constructor
  · intro env h1 h2 h3
    rcases env with ⟨d, c, icc⟩
    subst h1; subst h2; subst h3
    exact ⟨rfl, by simp [AutoCal.run_calibration]⟩
  · intro env h1 h2 h3 h4 h5
    rcases env with ⟨df, cf, cr, pr, icc, fin, ap⟩
    subst h1; subst h2; subst h3; subst h4; subst h5
    rfl

/-- C6 witness: the amended claim at concrete environments — tools exit 0,
artifact absent. -/
theorem artifact_missing_witness :
    ((AutoCal.run_calibration ⟨some 0, some 0, false⟩).success = true ∧
     LogEvent.artifactMissingWarning ∈
       (AutoCal.run_calibration ⟨some 0, some 0, false⟩).logs) ∧
    (CalNew.run_calibration_process ⟨true, true, some 0, 0, false, true, true⟩).success
      = false :=
  ⟨artifact_missing_amended.1 ⟨some 0, some 0, false⟩ rfl rfl rfl,
   artifact_missing_amended.2 ⟨true, true, some 0, 0, false, true, true⟩ rfl rfl rfl rfl rfl⟩

/-- C7: in both orchestrators, when the measurement tool exits with a
non-zero code the run result is failure, the profiling tool is never
invoked, and the measurement stage ran exactly once (no retry). -/
theorem stage_ordering_on_measurement_failure :
    (∀ (env : AutoCal.RunEnv) (code : ℤ),
      env.dispcalResult = some code → code ≠ 0 →
        (AutoCal.run_calibration env).success = false ∧
        Invocation.colprofRun ∉ (AutoCal.run_calibration env).invoked ∧
        (AutoCal.run_calibration env).invoked.count Invocation.dispcalRun = 1) ∧
    (∀ (env : CalNew.RunEnv) (code : ℤ),
      env.dispcalFound = true → env.colprofFound = true →
      env.callResult = some code → code ≠ 0 →
        (CalNew.run_calibration_process env).success = false ∧
        Invocation.colprofRun ∉ (CalNew.run_calibration_process env).invoked ∧
        (CalNew.run_calibration_process env).invoked.count Invocation.dispcalRun = 1) := by
  constructor
  · intro env code h1 h2
    rcases env with ⟨d, c, icc⟩
    subst h1
    simp [AutoCal.run_calibration, h2, List.count_cons]
  · intro env code h1 h2 h3 h4
    rcases env with ⟨df, cf, cr, pr, icc, fin, ap⟩
    subst h1; subst h2; subst h3
    simp [CalNew.run_calibration_process, h4, List.count_cons]

/-- C7 witness: both orchestrators at a concrete environment whose
measurement stage exits with code 1. -/
theorem stage_ordering_witness :
    ((AutoCal.run_calibration ⟨some 1, none, false⟩).success = false ∧
     Invocation.colprofRun ∉ (AutoCal.run_calibration ⟨some 1, none, false⟩).invoked ∧
     (AutoCal.run_calibration ⟨some 1, none, false⟩).invoked.count
       Invocation.dispcalRun = 1) ∧
    ((CalNew.run_calibration_process ⟨true, true, some 1, 0, false, true, true⟩).success
       = false ∧
     Invocation.colprofRun ∉
       (CalNew.run_calibration_process ⟨true, true, some 1, 0, false, true, true⟩).invoked ∧
     (CalNew.run_calibration_process ⟨true, true, some 1, 0, false, true, true⟩).invoked.count
       Invocation.dispcalRun = 1) :=
  ⟨stage_ordering_on_measurement_failure.1 ⟨some 1, none, false⟩ 1 rfl (by decide),
   stage_ordering_on_measurement_failure.2 ⟨true, true, some 1, 0, false, true, true⟩ 1
     rfl rfl rfl (by decide)⟩

lemma autoDispcalCmd_eq (s : AutoCal.Settings) :
    AutoCal.dispcalCmd s =
      if s.red_adjustment ≠ 0 ∨ s.green_adjustment ≠ 0 ∨ s.blue_adjustment ≠ 0 then
        [.str "dispcal", .str "-d1", .str "-t", .whitePt s.white_point,
         .str "-g", .gammaVal s.gamma, .str "-yl", .str "-q", .str "m",
         .rFactor (colorFactor s.red_adjustment),
         .gFactor (colorFactor s.green_adjustment),
         .bFactor (colorFactor s.blue_adjustment),
         .outBase s.name]
      else AutoCal.dispcalBase s := by
  unfold AutoCal.dispcalCmd
  split
  · rfl
  · rfl

lemma newDispcalCmd_eq (s : CalNew.Settings) :
    CalNew.dispcalCmd s =
      if s.red_adj ≠ 0 ∨ s.green_adj ≠ 0 ∨ s.blue_adj ≠ 0 then
        [.str "dispcal", .str "-d1", .str "-t", .whitePt s.white_point,
         .str "-g", .gammaVal s.gamma, .str "-yl", .str "-q", .str s.quality,
         .rFactor (colorFactor s.red_adj),
         .gFactor (colorFactor s.green_adj),
         .bFactor (colorFactor s.blue_adj),
         .outBase s.name]
      else CalNew.dispcalBase s := by
  unfold CalNew.dispcalCmd
  split
  · rfl
  · rfl

/-- C8: each percentage adjustment converts to the factor
`1 + adjustment / 100` — so −5 gives exactly 0.950 and 10 gives exactly
1.100 (both exact at three decimals, the precision the source prints) —
and in both orchestrators the R/G/B factor arguments appear in the
measurement command exactly when at least one of the three adjustments is
non-zero. -/
theorem color_factor_conversion :
    colorFactor (-5) = (0.950 : ℚ) ∧ colorFactor 10 = (1.100 : ℚ) ∧
    (∀ s : AutoCal.Settings,
      ((CmdArg.rFactor (colorFactor s.red_adjustment) ∈ AutoCal.dispcalCmd s) ↔
        (s.red_adjustment ≠ 0 ∨ s.green_adjustment ≠ 0 ∨ s.blue_adjustment ≠ 0)) ∧
      ((CmdArg.gFactor (colorFactor s.green_adjustment) ∈ AutoCal.dispcalCmd s) ↔
        (s.red_adjustment ≠ 0 ∨ s.green_adjustment ≠ 0 ∨ s.blue_adjustment ≠ 0)) ∧
      ((CmdArg.bFactor (colorFactor s.blue_adjustment) ∈ AutoCal.dispcalCmd s) ↔
        (s.red_adjustment ≠ 0 ∨ s.green_adjustment ≠ 0 ∨ s.blue_adjustment ≠ 0))) ∧
    (∀ s : CalNew.Settings,
      ((CmdArg.rFactor (colorFactor s.red_adj) ∈ CalNew.dispcalCmd s) ↔
        (s.red_adj ≠ 0 ∨ s.green_adj ≠ 0 ∨ s.blue_adj ≠ 0)) ∧
      ((CmdArg.gFactor (colorFactor s.green_adj) ∈ CalNew.dispcalCmd s) ↔
        (s.red_adj ≠ 0 ∨ s.green_adj ≠ 0 ∨ s.blue_adj ≠ 0)) ∧
      ((CmdArg.bFactor (colorFactor s.blue_adj) ∈ CalNew.dispcalCmd s) ↔
        (s.red_adj ≠ 0 ∨ s.green_adj ≠ 0 ∨ s.blue_adj ≠ 0))) := by
  refine ⟨by norm_num [colorFactor], by norm_num [colorFactor], ?_, ?_⟩
  · intro s
    rw [autoDispcalCmd_eq]
    by_cases h : s.red_adjustment ≠ 0 ∨ s.green_adjustment ≠ 0 ∨ s.blue_adjustment ≠ 0 <;>
      simp [h, AutoCal.dispcalBase]
  · intro s
    rw [newDispcalCmd_eq]
    by_cases h : s.red_adj ≠ 0 ∨ s.green_adj ≠ 0 ∨ s.blue_adj ≠ 0 <;>
      simp [h, CalNew.dispcalBase]

end DisplayCal
